import Mathlib

/-!
Verification development for the solar power prediction core
(`core/ml_model.py` and the timeframe-scaling caller in `core/api_views.py`).

The Python code is shallowly embedded: the eleven-feature record is a
structure of rationals, the sklearn regressor and standardizer are modelled
by their observable behaviour (a prediction function, an optional list of
per-estimator prediction functions, a per-feature affine transform), the
numpy RNG is a parameter supplying draws together with numpy's documented
range contract for `uniform`, and the filesystem holding the two persisted
artifacts is an explicit disk state.  Exceptions are `Except` values and
the mutation of the global model instance is explicit state passing.
-/

/-- The ordered eleven-feature record fed to the model
(`prepare_features` / the `pd.DataFrame` built in `predict_power_output`). -/
structure FeatureVec where
  latitude : ℚ
  longitude : ℚ
  surface_area : ℚ
  tilt_angle : ℚ
  azimuth_angle : ℚ
  panel_efficiency : ℚ
  solar_irradiance : ℚ
  temperature : ℚ
  humidity : ℚ
  wind_speed : ℚ
  cloud_cover : ℚ
  deriving DecidableEq

/-- A Python dict of weather values: an association list with string keys
(first binding wins, as dict keys are unique). -/
abbrev WeatherDict : Type := List (String × ℚ)

/-- Python `weather_data.get(key, default)`: the value of the first binding of
`key`, or `default` when no binding exists. -/
def dictGet (d : WeatherDict) (key : String) (default : ℚ) : ℚ :=
  match d with
  | [] => default
  | kv :: t => if kv.1 = key then kv.2 else dictGet t key default

/-- The input record built in `predict_power_output` (lines 150-162):
explicit arguments plus the weather values with their documented defaults. -/
def inputVec (latitude longitude surface_area tilt_angle azimuth_angle
    panel_efficiency : ℚ) (weather_data : WeatherDict) : FeatureVec :=
  { latitude := latitude
    longitude := longitude
    surface_area := surface_area
    tilt_angle := tilt_angle
    azimuth_angle := azimuth_angle
    panel_efficiency := panel_efficiency
    solar_irradiance := dictGet weather_data "solar_irradiance" 5.0
    temperature := dictGet weather_data "temperature" 25.0
    humidity := dictGet weather_data "humidity" 50.0
    wind_speed := dictGet weather_data "wind_speed" 5.0
    cloud_cover := dictGet weather_data "cloud_cover" 30.0 }

/-- A fitted `StandardScaler`: per-feature mean and scale learned from
training data; `transform` maps `x` to `(x - mean) / scale` feature-wise. -/
structure FittedScaler where
  mean : FeatureVec
  scale : FeatureVec

def FittedScaler.transform (s : FittedScaler) (x : FeatureVec) : FeatureVec :=
  { latitude := (x.latitude - s.mean.latitude) / s.scale.latitude
    longitude := (x.longitude - s.mean.longitude) / s.scale.longitude
    surface_area := (x.surface_area - s.mean.surface_area) / s.scale.surface_area
    tilt_angle := (x.tilt_angle - s.mean.tilt_angle) / s.scale.tilt_angle
    azimuth_angle := (x.azimuth_angle - s.mean.azimuth_angle) / s.scale.azimuth_angle
    panel_efficiency := (x.panel_efficiency - s.mean.panel_efficiency) / s.scale.panel_efficiency
    solar_irradiance := (x.solar_irradiance - s.mean.solar_irradiance) / s.scale.solar_irradiance
    temperature := (x.temperature - s.mean.temperature) / s.scale.temperature
    humidity := (x.humidity - s.mean.humidity) / s.scale.humidity
    wind_speed := (x.wind_speed - s.mean.wind_speed) / s.scale.wind_speed
    cloud_cover := (x.cloud_cover - s.mean.cloud_cover) / s.scale.cloud_cover }

/-- A fitted `RandomForestRegressor`: its prediction function on a single
standardized row, and — when the object exposes `estimators_` — the
per-tree prediction functions used for the confidence proxy. -/
structure FittedModel where
  predictFn : FeatureVec → ℚ
  estimators : Option (List (FeatureVec → ℚ))

/-- In-memory state of the global `SolarPowerMLModel` instance: `none`
stands for an unfitted regressor / standardizer (a fitted-state check on
it fails). -/
structure MLState where
  model : Option FittedModel
  scaler : Option FittedScaler

/-- Contents of one persisted artifact path as `joblib.load` sees it:
missing file (raises `FileNotFoundError`), corrupt blob (raises some other
exception), or a well-formed fitted artifact. -/
inductive Blob (α : Type) where
  | absent : Blob α
  | corrupt : Blob α
  | good : α → Blob α

/-- The two co-located artifact files (`solar_model.joblib`, `scaler.joblib`). -/
structure Disk where
  model_file : Blob FittedModel
  scaler_file : Blob FittedScaler

/-- The world a `SolarPowerMLModel` method runs in: the in-memory state and
the artifact files on disk. -/
structure World where
  state : MLState
  disk : Disk

/-- Result of the (externally implemented) sklearn fitting on the seeded
synthetic dataset of a given sample count: `train_model` is deterministic
given the seed, so its outcome is a function of `n_samples` only. -/
def TrainOracle : Type := ℕ → FittedModel × FittedScaler

/-- Embeds `train_model` (lines 91-124): fits standardizer and regressor on the
seeded synthetic data and persists both blobs, overwriting the disk. -/
def train_model (tr : TrainOracle) (n_samples : ℕ) (_w : World) : World :=
  { state := { model := some (tr n_samples).1, scaler := some (tr n_samples).2 }
    disk := { model_file := Blob.good (tr n_samples).1
              scaler_file := Blob.good (tr n_samples).2 } }

/-- Embeds `load_model` (lines 126-138).  Here `joblib.load(model_path)` runs first and
its result is assigned to `self.model` before the scaler file is touched;
`FileNotFoundError` triggers a synchronous `train_model()` (default
`n_samples=5000`) and returns `True`; any other exception returns `False`. -/
def load_model (tr : TrainOracle) (w : World) : World × Bool :=
  match w.disk.model_file with
  | Blob.absent => (train_model tr 5000 w, true)
  | Blob.corrupt => (w, false)
  | Blob.good m =>
    let w1 : World := { w with state := { w.state with model := some m } }
    match w.disk.scaler_file with
    | Blob.absent => (train_model tr 5000 w1, true)
    | Blob.corrupt => (w1, false)
    | Blob.good sc => ({ w1 with state := { w1.state with scaler := some sc } }, true)

/-- Exceptions the prediction path can raise to its caller. -/
inductive PredErr where
  | notFitted : PredErr
  deriving DecidableEq

/-- Numpy `np.mean` of a list (division by zero yields 0 in ℚ, mirroring that the
mean-zero corner is settled by the clamp rather than by this value). -/
def npMean (l : List ℚ) : ℚ := l.sum / l.length

/-- Population variance, `np.std(l) ** 2`. -/
def npVar (l : List ℚ) : ℚ := ((l.map (fun x => (x - npMean l) ^ 2)).sum) / l.length

/-- Numpy `np.std`: square root of the population variance. -/
noncomputable def npStd (l : List ℚ) : ℝ := Real.sqrt (npVar l)

/-- The clamp `min(1.0, max(0.0, c))` applied to the confidence on line 177. -/
noncomputable def clamp01 (c : ℝ) : ℝ := min 1 (max 0 c)

/-- Raw confidence before the clamp (lines 171-175): `1 - std/mean` of the
per-tree predictions when `estimators_` is exposed, else the 0.8 default. -/
noncomputable def rawConfidence (m : FittedModel) (x : FeatureVec) : ℝ :=
  match m.estimators with
  | some trees => 1 - npStd (trees.map (fun t => t x)) / (npMean (trees.map (fun t => t x)) : ℝ)
  | none => 0.8

/-- Embeds `predict_power_output` (lines 140-177).  The fitted-state check on the
scaler fails exactly when it is `none`, in which case `load_model` runs
(its boolean result discarded); then the input row is built, standardized
and predicted.  `transform` on a still-unfitted scaler, or `predict` on a
still-unfitted model, raises a fitted-state error. -/
noncomputable def predict_power_output (tr : TrainOracle) (w : World)
    (latitude longitude surface_area tilt_angle azimuth_angle panel_efficiency : ℚ)
    (weather_data : WeatherDict) : World × Except PredErr (ℚ × ℝ) :=
  let w1 : World := if w.state.scaler.isSome then w else (load_model tr w).1
  let input := inputVec latitude longitude surface_area tilt_angle azimuth_angle
      panel_efficiency weather_data
  match w1.state.scaler with
  | none => (w1, Except.error PredErr.notFitted)
  | some sc =>
    match w1.state.model with
    | none => (w1, Except.error PredErr.notFitted)
    | some m =>
      let x := sc.transform input
      (w1, Except.ok (max 0 (m.predictFn x), clamp01 (rawConfidence m x)))

/-- One synthetic training example (lines 61-74): the eleven drawn input
fields and the computed `power_output` label. -/
structure Example where
  latitude : ℚ
  longitude : ℚ
  surface_area : ℚ
  tilt_angle : ℚ
  azimuth_angle : ℚ
  panel_efficiency : ℚ
  solar_irradiance : ℚ
  temperature : ℚ
  humidity : ℚ
  wind_speed : ℚ
  cloud_cover : ℚ
  power_output : ℝ

/-- The `np.random` module: a seedable state, `uniform(lo, hi)` and
`normal(mu, sigma)` draws advancing the state, together with numpy's
documented contract that `uniform(lo, hi)` lands in `[lo, hi)`. -/
structure NumpyRNG where
  State : Type
  seed : ℕ → State
  uniform : State → ℚ → ℚ → ℚ × State
  normal : State → ℝ → ℝ → ℝ × State
  uniform_mem : ∀ s lo hi, lo < hi →
    lo ≤ (uniform s lo hi).1 ∧ (uniform s lo hi).1 < hi

/-- Numpy `np.radians`: degrees to radians. -/
noncomputable def radians (d : ℝ) : ℝ := d * (Real.pi / 180)

/-- The empirical base-power formula of lines 48-56, as a function of the
drawn fields:
`surface_area * (irradiance/5) * (1 - |temperature-25|/100) *
 cos(radians(|tilt - |latitude||)) * ((100-cloud_cover)/100) * efficiency`. -/
noncomputable def basePowerCalc (latitude surface_area tilt_angle panel_efficiency
    solar_irradiance temperature cloud_cover : ℚ) : ℝ :=
  (surface_area : ℝ) * ((solar_irradiance : ℝ) / 5)
    * (1 - |(temperature : ℝ) - 25| / 100)
    * Real.cos (radians (abs ((tilt_angle : ℝ) - abs (latitude : ℝ))))
    * ((100 - (cloud_cover : ℝ)) / 100)
    * (panel_efficiency : ℝ)

/-- The base-power formula re-read off a stored example's fields. -/
noncomputable def basePower (e : Example) : ℝ :=
  basePowerCalc e.latitude e.surface_area e.tilt_angle e.panel_efficiency
    e.solar_irradiance e.temperature e.cloud_cover

/-- One iteration of the generation loop (lines 28-74): the eleven uniform
draws in source order, the noisy label `max(0, base + normal(0, 0.1*base))`. -/
noncomputable def genExample (g : NumpyRNG) (s : g.State) : Example × g.State :=
  let u1 := g.uniform s (-60) 60
  let latitude := u1.1
  let u2 := g.uniform u1.2 (-180) 180
  let longitude := u2.1
  let u3 := g.uniform u2.2 10 100
  let surface_area := u3.1
  let u4 := g.uniform u3.2 0 60
  let tilt_angle := u4.1
  let u5 := g.uniform u4.2 0 360
  let azimuth_angle := u5.1
  let u6 := g.uniform u5.2 (15/100) (25/100)
  let panel_efficiency := u6.1
  let u7 := g.uniform u6.2 2 8
  let solar_irradiance := u7.1
  let u8 := g.uniform u7.2 (-10) 45
  let temperature := u8.1
  let u9 := g.uniform u8.2 20 90
  let humidity := u9.1
  let u10 := g.uniform u9.2 0 20
  let wind_speed := u10.1
  let u11 := g.uniform u10.2 0 100
  let cloud_cover := u11.1
  let base_power := basePowerCalc latitude surface_area tilt_angle panel_efficiency
    solar_irradiance temperature cloud_cover
  let nz := g.normal u11.2 0 (base_power * (1/10))
  let power_output := max 0 (base_power + nz.1)
  (⟨latitude, longitude, surface_area, tilt_angle, azimuth_angle, panel_efficiency,
    solar_irradiance, temperature, humidity, wind_speed, cloud_cover, power_output⟩,
   nz.2)

/-- The generation loop: `n` examples appended in order, threading the RNG state. -/
noncomputable def genList (g : NumpyRNG) (s : g.State) : ℕ → List Example
  | 0 => []
  | n + 1 =>
    let es := genExample g s
    es.1 :: genList g es.2 n

/-- Embeds `generate_synthetic_data` (lines 23-76): calls `np.random.seed(42)`
first — so the prior RNG state `s0` is discarded — then draws `n_samples`
examples. -/
noncomputable def generate_synthetic_data (g : NumpyRNG) (_s0 : g.State)
    (n_samples : ℕ) : List Example :=
  genList g (g.seed 42) n_samples

/-- The `timeframe` field validated by the API serializer. -/
inductive Timeframe where
  | daily : Timeframe
  | weekly : Timeframe
  | monthly : Timeframe

/-- The caller-side scaling of `api_views.py` lines 62-67: the per-day
Predictor output is multiplied by 7 for `weekly`, 30 for `monthly`, and
stored unchanged for `daily`. -/
def adjust_for_timeframe (timeframe : Timeframe) (predicted_output : ℚ) : ℚ :=
  match timeframe with
  | Timeframe.daily => predicted_output
  | Timeframe.weekly => predicted_output * 7
  | Timeframe.monthly => predicted_output * 30

/-- Python `range(0, 61, 5)`: the thirteen tilt grid values. -/
def tilt_range : List ℕ := List.range' 0 13 5

/-- Python `range(0, 361, 15)`: the twenty-five azimuth grid values. -/
def azimuth_range : List ℕ := List.range' 0 25 15

/-- The grid in iteration order: ascending tilt, then ascending azimuth. -/
def optGrid : List (ℕ × ℕ) :=
  tilt_range.flatMap (fun t => azimuth_range.map (fun a => (t, a)))

/-- One grid cell of the search loop body (lines 192-200): call the
predictor, propagate its exception, otherwise update the best triple under
a strictly-greater comparison. -/
noncomputable def optCell (tr : TrainOracle)
    (latitude longitude surface_area panel_efficiency : ℚ) (weather_data : WeatherDict)
    (acc : World × Except PredErr (ℕ × ℕ × ℚ)) (p : ℕ × ℕ) :
    World × Except PredErr (ℕ × ℕ × ℚ) :=
  match acc with
  | (w, Except.error e) => (w, Except.error e)
  | (w, Except.ok best) =>
    match predict_power_output tr w latitude longitude surface_area (p.1 : ℚ) (p.2 : ℚ)
        panel_efficiency weather_data with
    | (w', Except.error e) => (w', Except.error e)
    | (w', Except.ok (output, _)) =>
      (w', Except.ok (if output > best.2.2 then (p.1, p.2, output) else best))

/-- Embeds `find_optimal_configuration` (lines 179-202): nested loops over tilt
then azimuth starting from the triple `(0, 0, 0)`. -/
noncomputable def find_optimal_configuration (tr : TrainOracle) (w : World)
    (latitude longitude surface_area panel_efficiency : ℚ) (weather_data : WeatherDict) :
    World × Except PredErr (ℕ × ℕ × ℚ) :=
  tilt_range.foldl
    (fun acc t => azimuth_range.foldl
      (fun acc' a => optCell tr latitude longitude surface_area panel_efficiency
        weather_data acc' (t, a)) acc)
    (w, Except.ok (0, 0, 0))

/-! ## Helper constants used by concrete witnesses -/

/-- All-zero feature record. -/
def fvZero : FeatureVec := ⟨0, 0, 0, 0, 0, 0, 0, 0, 0, 0, 0⟩

/-- All-one feature record. -/
def fvOne : FeatureVec := ⟨1, 1, 1, 1, 1, 1, 1, 1, 1, 1, 1⟩

/-- Identity-like fitted standardizer (mean 0, scale 1). -/
def idScaler : FittedScaler := ⟨fvZero, fvOne⟩

/-- A fitted model predicting the constant 1, with no estimator list. -/
def modelOne : FittedModel := ⟨fun _ => 1, none⟩

/-- A fitted model predicting the constant 2, with no estimator list. -/
def modelTwo : FittedModel := ⟨fun _ => 2, none⟩

/-- A fitted model predicting 3 whose single estimator predicts 0, so that
the per-tree prediction mean is zero. -/
def modelMeanZero : FittedModel := ⟨fun _ => 3, some [fun _ => 0]⟩

/-- A training oracle whose fits yield `modelOne` with `idScaler`. -/
def oracleOne : TrainOracle := fun _ => (modelOne, idScaler)

/-- A world whose in-memory pair is fitted (`modelOne`/`idScaler`) and whose
artifact files are absent. -/
def wFitOne : World :=
  ⟨⟨some modelOne, some idScaler⟩, ⟨Blob.absent, Blob.absent⟩⟩

/-- A world whose in-memory model has a single estimator tree predicting 0,
so the per-tree prediction mean is zero. -/
def wFitMeanZero : World :=
  ⟨⟨some modelMeanZero, some idScaler⟩, ⟨Blob.absent, Blob.absent⟩⟩

/-- Both the in-memory regressor and standardizer pass a fitted-state check. -/
def fittedPair (st : MLState) : Prop :=
  st.model.isSome = true ∧ st.scaler.isSome = true

instance (st : MLState) : Decidable (fittedPair st) := by
  unfold fittedPair
  infer_instance

/-- A world with a fitted in-memory pair but a corrupt persisted model blob. -/
def wCorruptDisk : World :=
  ⟨⟨some modelOne, some idScaler⟩, ⟨Blob.corrupt, Blob.good idScaler⟩⟩

/-- A world with a fitted in-memory pair, a loadable persisted model blob
predicting 2, and a corrupt persisted scaler blob. -/
def wMixedDisk : World :=
  ⟨⟨some modelOne, some idScaler⟩, ⟨Blob.good modelTwo, Blob.corrupt⟩⟩

/-- A fresh-process world (nothing fitted in memory) over corrupt artifacts. -/
def wFreshCorrupt : World := ⟨⟨none, none⟩, ⟨Blob.corrupt, Blob.corrupt⟩⟩

/-- A degenerate RNG implementation: `uniform` returns the lower endpoint
and `normal` returns the fixed noise -1, exercising the negative-noise
clamp. -/
def constRNG : NumpyRNG where
  State := Unit
  seed := fun _ => ()
  uniform := fun s lo _ => (lo, s)
  normal := fun s _ _ => (-1, s)
  uniform_mem := fun _ lo _ h => ⟨le_refl lo, h⟩

/-- The pure update of the search loop body on a best triple: a
strictly-greater comparison keeps earlier equal-value candidates. -/
def optStep (f : ℕ × ℕ → ℚ) (best : ℕ × ℕ × ℚ) (p : ℕ × ℕ) : ℕ × ℕ × ℚ :=
  if f p > best.2.2 then (p.1, p.2, f p) else best

/-- The Predictor output seen by the search loop at grid point `p` on a
fitted state: the clamped regression value at the standardized input. -/
def predOutput (m : FittedModel) (sc : FittedScaler)
    (latitude longitude surface_area panel_efficiency : ℚ)
    (weather_data : WeatherDict) (p : ℕ × ℕ) : ℚ :=
  max 0 (m.predictFn (sc.transform (inputVec latitude longitude surface_area
    (p.1 : ℚ) (p.2 : ℚ) panel_efficiency weather_data)))

/-- A fitted model predicting the constant 5, with no estimator list. -/
def modelFive : FittedModel := ⟨fun _ => 5, none⟩

/-- A fitted world around `modelFive`. -/
def wFitFive : World :=
  ⟨⟨some modelFive, some idScaler⟩, ⟨Blob.absent, Blob.absent⟩⟩

/-! ## Dictionary lookup semantics (claim C6) -/

theorem dictGet_of_mem (d : WeatherDict) (k : String) (v dflt : ℚ)
    (hnd : (d.map Prod.fst).Nodup) (h : (k, v) ∈ d) : dictGet d k dflt = v := by
  induction d with
  | nil => cases h
  | cons kv t ih =>
    simp only [List.map_cons, List.nodup_cons] at hnd
    by_cases hk : kv.1 = k
    · have hv : kv.2 = v := by
        rcases List.mem_cons.1 h with h1 | h1
        · rw [← h1]
        · exact absurd (hk ▸ List.mem_map.2 ⟨(k, v), h1, rfl⟩) hnd.1
      simp [dictGet, hk, hv]
    · have h1 : (k, v) ∈ t := by
        rcases List.mem_cons.1 h with h1 | h1
        · exact absurd (by rw [← h1]) hk
        · exact h1
      simpa [dictGet, hk] using ih hnd.2 h1

theorem dictGet_of_not_mem (d : WeatherDict) (k : String) (dflt : ℚ)
    (h : k ∉ d.map Prod.fst) : dictGet d k dflt = dflt := by
  induction d with
  | nil => rfl
  | cons kv t ih =>
    simp only [List.map_cons, List.mem_cons] at h
    push_neg at h
    simpa [dictGet, Ne.symm h.1] using ih h.2

/-- C6: every weather feature of the input record built by
`predict_power_output` is taken from the mapping when its key is present,
and otherwise replaced by its documented default (irradiance 5.0,
temperature 25.0, humidity 50.0, wind speed 5.0, cloud cover 30.0); the
construction is total, so no exception is raised for missing keys. -/
theorem weather_defaults (latitude longitude surface_area tilt_angle azimuth_angle
    panel_efficiency : ℚ) (d : WeatherDict) (hnd : (d.map Prod.fst).Nodup) :
    ((∀ x, ("solar_irradiance", x) ∈ d →
        (inputVec latitude longitude surface_area tilt_angle azimuth_angle
          panel_efficiency d).solar_irradiance = x) ∧
      ("solar_irradiance" ∉ d.map Prod.fst →
        (inputVec latitude longitude surface_area tilt_angle azimuth_angle
          panel_efficiency d).solar_irradiance = 5)) ∧
    ((∀ x, ("temperature", x) ∈ d →
        (inputVec latitude longitude surface_area tilt_angle azimuth_angle
          panel_efficiency d).temperature = x) ∧
      ("temperature" ∉ d.map Prod.fst →
        (inputVec latitude longitude surface_area tilt_angle azimuth_angle
          panel_efficiency d).temperature = 25)) ∧
    ((∀ x, ("humidity", x) ∈ d →
        (inputVec latitude longitude surface_area tilt_angle azimuth_angle
          panel_efficiency d).humidity = x) ∧
      ("humidity" ∉ d.map Prod.fst →
        (inputVec latitude longitude surface_area tilt_angle azimuth_angle
          panel_efficiency d).humidity = 50)) ∧
    ((∀ x, ("wind_speed", x) ∈ d →
        (inputVec latitude longitude surface_area tilt_angle azimuth_angle
          panel_efficiency d).wind_speed = x) ∧
      ("wind_speed" ∉ d.map Prod.fst →
        (inputVec latitude longitude surface_area tilt_angle azimuth_angle
          panel_efficiency d).wind_speed = 5)) ∧
    ((∀ x, ("cloud_cover", x) ∈ d →
        (inputVec latitude longitude surface_area tilt_angle azimuth_angle
          panel_efficiency d).cloud_cover = x) ∧
      ("cloud_cover" ∉ d.map Prod.fst →
        (inputVec latitude longitude surface_area tilt_angle azimuth_angle
          panel_efficiency d).cloud_cover = 30)) := by
  refine ⟨⟨?_, ?_⟩, ⟨?_, ?_⟩, ⟨?_, ?_⟩, ⟨?_, ?_⟩, ⟨?_, ?_⟩⟩ <;>
    first
      | (intro x hx
         simpa [inputVec] using dictGet_of_mem d _ x _ hnd hx)
      | (intro hab
         simp only [inputVec]
         rw [dictGet_of_not_mem d _ _ hab] <;> norm_num)

/-- Witness for C6 at a concrete mapping holding `temperature` and
`wind_speed` only: present keys are read, missing keys get defaults. -/
theorem weather_defaults_witness :
    (inputVec 1 2 3 4 5 6 [("temperature", 30), ("wind_speed", 2)]).temperature = 30 ∧
    (inputVec 1 2 3 4 5 6 [("temperature", 30), ("wind_speed", 2)]).solar_irradiance = 5 ∧
    (inputVec 1 2 3 4 5 6 [("temperature", 30), ("wind_speed", 2)]).humidity = 50 ∧
    (inputVec 1 2 3 4 5 6 [("temperature", 30), ("wind_speed", 2)]).wind_speed = 2 ∧
    (inputVec 1 2 3 4 5 6 [("temperature", 30), ("wind_speed", 2)]).cloud_cover = 30 := by
  have h := weather_defaults 1 2 3 4 5 6 [("temperature", 30), ("wind_speed", 2)]
    (by decide)
  exact ⟨h.2.1.1 30 (by decide), h.1.2 (by decide), h.2.2.1.2 (by decide),
    h.2.2.2.1.1 2 (by decide), h.2.2.2.2.2 (by decide)⟩

/-- C8: `generate_synthetic_data` reseeds the global numpy RNG with the
fixed seed 42 before drawing, so for one RNG implementation and one sample
count any two calls produce identical datasets — identical values field by
field, row by row — regardless of the RNG state before the call. -/
theorem synthetic_data_seed_determinism (g : NumpyRNG) (s1 s2 : g.State)
    (n_samples : ℕ) :
    generate_synthetic_data g s1 n_samples = generate_synthetic_data g s2 n_samples :=
  rfl

/-- C10: the timeframe scaling of `PredictPowerView.post` is applied by the
caller to the Predictor's per-day output: for the same underlying
Predictor output `o`, the stored weekly total is `7 *` the daily total,
the monthly total is `30 *` it, and the daily total is `o` itself
(the Predictor's result is stored unscaled). -/
theorem timeframe_scaling (tr : TrainOracle) (w : World)
    (latitude longitude surface_area tilt_angle azimuth_angle panel_efficiency : ℚ)
    (weather_data : WeatherDict) (o : ℚ) (c : ℝ)
    (h : (predict_power_output tr w latitude longitude surface_area tilt_angle
        azimuth_angle panel_efficiency weather_data).2 = Except.ok (o, c)) :
    adjust_for_timeframe Timeframe.weekly o = 7 * adjust_for_timeframe Timeframe.daily o ∧
    adjust_for_timeframe Timeframe.monthly o = 30 * adjust_for_timeframe Timeframe.daily o ∧
    adjust_for_timeframe Timeframe.daily o = o := by
  refine ⟨?_, ?_, rfl⟩ <;> simp [adjust_for_timeframe] <;> ring

/-! ## The prediction path on a fitted state -/

theorem predict_power_output_fitted (tr : TrainOracle) (w : World)
    (latitude longitude surface_area tilt_angle azimuth_angle panel_efficiency : ℚ)
    (weather_data : WeatherDict) (m : FittedModel) (sc : FittedScaler)
    (hm : w.state.model = some m) (hs : w.state.scaler = some sc) :
    predict_power_output tr w latitude longitude surface_area tilt_angle
        azimuth_angle panel_efficiency weather_data =
      (w, Except.ok
        (max 0 (m.predictFn (sc.transform (inputVec latitude longitude surface_area
            tilt_angle azimuth_angle panel_efficiency weather_data))),
         clamp01 (rawConfidence m (sc.transform (inputVec latitude longitude
            surface_area tilt_angle azimuth_angle panel_efficiency weather_data))))) := by
  simp [predict_power_output, hm, hs]

theorem clamp01_nonneg (c : ℝ) : 0 ≤ clamp01 c :=
  le_min zero_le_one (le_max_left 0 c)

theorem clamp01_le_one (c : ℝ) : clamp01 c ≤ 1 :=
  min_le_left 1 (max 0 c)

/-- C2: on a fitted state, `predict_power_output` succeeds with an output
`≥ 0` and a confidence in `[0,1]`; the confidence is the clamp of
`1 - std/mean` of the per-tree predictions when the model exposes
`estimators_`, and the 0.8 default otherwise.  The bound holds for every
per-tree prediction list, in particular when its mean is zero. -/
theorem predict_output_bounds (tr : TrainOracle) (w : World)
    (latitude longitude surface_area tilt_angle azimuth_angle panel_efficiency : ℚ)
    (weather_data : WeatherDict) (m : FittedModel) (sc : FittedScaler)
    (hm : w.state.model = some m) (hs : w.state.scaler = some sc) :
    (predict_power_output tr w latitude longitude surface_area tilt_angle
        azimuth_angle panel_efficiency weather_data).2 =
      Except.ok
        (max 0 (m.predictFn (sc.transform (inputVec latitude longitude surface_area
            tilt_angle azimuth_angle panel_efficiency weather_data))),
         clamp01 (rawConfidence m (sc.transform (inputVec latitude longitude
            surface_area tilt_angle azimuth_angle panel_efficiency weather_data)))) ∧
    0 ≤ max 0 (m.predictFn (sc.transform (inputVec latitude longitude surface_area
        tilt_angle azimuth_angle panel_efficiency weather_data))) ∧
    0 ≤ clamp01 (rawConfidence m (sc.transform (inputVec latitude longitude
        surface_area tilt_angle azimuth_angle panel_efficiency weather_data))) ∧
    clamp01 (rawConfidence m (sc.transform (inputVec latitude longitude
        surface_area tilt_angle azimuth_angle panel_efficiency weather_data))) ≤ 1 ∧
    (∀ trees, m.estimators = some trees →
      rawConfidence m (sc.transform (inputVec latitude longitude surface_area
          tilt_angle azimuth_angle panel_efficiency weather_data)) =
        1 - npStd (trees.map (fun t => t (sc.transform (inputVec latitude longitude
              surface_area tilt_angle azimuth_angle panel_efficiency weather_data)))) /
            (npMean (trees.map (fun t => t (sc.transform (inputVec latitude longitude
              surface_area tilt_angle azimuth_angle panel_efficiency weather_data)))) : ℝ)) ∧
    (m.estimators = none →
      clamp01 (rawConfidence m (sc.transform (inputVec latitude longitude
          surface_area tilt_angle azimuth_angle panel_efficiency weather_data))) = 0.8) := by
  refine ⟨?_, le_max_left _ _, clamp01_nonneg _, clamp01_le_one _, ?_, ?_⟩
  · rw [predict_power_output_fitted tr w latitude longitude surface_area tilt_angle
      azimuth_angle panel_efficiency weather_data m sc hm hs]
  · intro trees htrees
    simp [rawConfidence, htrees]
  · intro hnone
    simp only [rawConfidence, hnone]
    rw [clamp01]
    norm_num

/-- Witness for C2 on a concrete fitted world whose single estimator tree
predicts 0, so the per-tree prediction mean is zero: the confidence bound
still holds. -/
theorem predict_output_bounds_witness :
    npMean ((modelMeanZero.estimators.getD []).map
      (fun t => t (idScaler.transform (inputVec 1 2 3 4 5 6 [])))) = 0 ∧
    0 ≤ clamp01 (rawConfidence modelMeanZero
      (idScaler.transform (inputVec 1 2 3 4 5 6 []))) ∧
    clamp01 (rawConfidence modelMeanZero
      (idScaler.transform (inputVec 1 2 3 4 5 6 []))) ≤ 1 ∧
    0 ≤ max 0 (modelMeanZero.predictFn
      (idScaler.transform (inputVec 1 2 3 4 5 6 []))) := by
  have h := predict_output_bounds oracleOne wFitMeanZero 1 2 3 4 5 6 []
    modelMeanZero idScaler rfl rfl
  refine ⟨?_, h.2.2.1, h.2.2.2.1, h.2.1⟩
  simp [modelMeanZero, npMean]

/-- C9: on a fitted state the Predictor call performs no state mutation
(the lazy load is skipped) and a second call with identical inputs returns
the identical `(output, confidence)` pair. -/
theorem predict_pure_fitted (tr : TrainOracle) (w : World)
    (latitude longitude surface_area tilt_angle azimuth_angle panel_efficiency : ℚ)
    (weather_data : WeatherDict) (m : FittedModel) (sc : FittedScaler)
    (hm : w.state.model = some m) (hs : w.state.scaler = some sc) :
    (predict_power_output tr w latitude longitude surface_area tilt_angle
        azimuth_angle panel_efficiency weather_data).1 = w ∧
    predict_power_output tr
        (predict_power_output tr w latitude longitude surface_area tilt_angle
          azimuth_angle panel_efficiency weather_data).1
        latitude longitude surface_area tilt_angle azimuth_angle panel_efficiency
        weather_data =
      predict_power_output tr w latitude longitude surface_area tilt_angle
        azimuth_angle panel_efficiency weather_data := by
  have hfix := predict_power_output_fitted tr w latitude longitude surface_area
    tilt_angle azimuth_angle panel_efficiency weather_data m sc hm hs
  constructor
  · rw [hfix]
  · rw [hfix]
    exact hfix

/-- Witness for C9 on a concrete fitted world. -/
theorem predict_pure_fitted_witness :
    (predict_power_output oracleOne wFitOne 1 2 3 4 5 6 []).1 = wFitOne ∧
    predict_power_output oracleOne
        (predict_power_output oracleOne wFitOne 1 2 3 4 5 6 []).1 1 2 3 4 5 6 [] =
      predict_power_output oracleOne wFitOne 1 2 3 4 5 6 [] :=
  predict_pure_fitted oracleOne wFitOne 1 2 3 4 5 6 [] modelOne idScaler rfl rfl

/-- Witness for C10 at Predictor output 1 on a concrete fitted world. -/
theorem timeframe_scaling_witness :
    adjust_for_timeframe Timeframe.weekly 1 =
      7 * adjust_for_timeframe Timeframe.daily 1 ∧
    adjust_for_timeframe Timeframe.monthly 1 =
      30 * adjust_for_timeframe Timeframe.daily 1 ∧
    adjust_for_timeframe Timeframe.daily 1 = 1 := by
  have hfix := predict_power_output_fitted oracleOne wFitOne 1 2 3 4 5 6 []
    modelOne idScaler rfl rfl
  have hone : max (0 : ℚ) (modelOne.predictFn
      (idScaler.transform (inputVec 1 2 3 4 5 6 []))) = 1 := by
    norm_num [modelOne]
  exact timeframe_scaling oracleOne wFitOne 1 2 3 4 5 6 [] 1
    (clamp01 (rawConfidence modelOne (idScaler.transform (inputVec 1 2 3 4 5 6 []))))
    (by rw [hfix, hone])

/-! ## The model store (claims C3, C4, C5) -/

/-- C4 (amended): `load_model` returns true only if a fitted pair is in
memory afterwards; when the model artifact file is absent — in particular
when both files are absent — it synchronously trains with the default
sample count 5000 and returns true; when loading throws for a reason other
than file absence it returns false without retraining (the disk, hence any
persisted artifact, is untouched); and false arises only in such a case. -/
theorem load_model_contract (tr : TrainOracle) (w : World) :
    ((load_model tr w).2 = true → fittedPair (load_model tr w).1.state) ∧
    (w.disk.model_file = Blob.absent →
      load_model tr w = (train_model tr 5000 w, true)) ∧
    (w.disk.model_file = Blob.corrupt → load_model tr w = (w, false)) ∧
    (∀ m, w.disk.model_file = Blob.good m → w.disk.scaler_file = Blob.corrupt →
      (load_model tr w).2 = false ∧ (load_model tr w).1.disk = w.disk ∧
      (load_model tr w).1.state.scaler = w.state.scaler) ∧
    ((load_model tr w).2 = false →
      w.disk.model_file = Blob.corrupt ∨
        (∃ m, w.disk.model_file = Blob.good m ∧
          w.disk.scaler_file = Blob.corrupt)) := by
  refine ⟨?_, ?_, ?_, ?_, ?_⟩
  · intro htrue
    rcases hmf : w.disk.model_file with _ | _ | m
    · simp [load_model, hmf, train_model, fittedPair]
    · simp [load_model, hmf] at htrue
    · rcases hsf : w.disk.scaler_file with _ | _ | sc
      · simp [load_model, hmf, hsf, train_model, fittedPair]
      · simp [load_model, hmf, hsf] at htrue
      · simp [load_model, hmf, hsf, fittedPair]
  · intro hmf
    simp [load_model, hmf]
  · intro hmf
    simp [load_model, hmf]
  · intro m hmf hsf
    simp [load_model, hmf, hsf]
  · intro hfalse
    rcases hmf : w.disk.model_file with _ | _ | m
    · simp [load_model, hmf] at hfalse
    · exact Or.inl rfl
    · rcases hsf : w.disk.scaler_file with _ | _ | sc
      · simp [load_model, hmf, hsf] at hfalse
      · exact Or.inr ⟨m, rfl, rfl⟩
      · simp [load_model, hmf, hsf] at hfalse

/-- Counterexample to C4 as stated: on a corrupt model blob `load_model`
returns false even though a usable (fitted) pair is still in memory, so
"returns true exactly when a usable model is in memory afterwards" fails. -/
theorem load_model_usable_iff_false :
    ¬(((load_model oracleOne wCorruptDisk).2 = true) ↔
      fittedPair (load_model oracleOne wCorruptDisk).1.state) := by
  intro hiff
  have hfit : fittedPair (load_model oracleOne wCorruptDisk).1.state := by
    simp [load_model, wCorruptDisk, fittedPair]
  have := hiff.2 hfit
  simp [load_model, wCorruptDisk] at this

/-- Witness for the amended C4: with both artifact files absent,
`load_model` trains with the default sample count 5000 and returns true. -/
theorem load_model_contract_witness :
    load_model oracleOne ⟨⟨none, none⟩, ⟨Blob.absent, Blob.absent⟩⟩ =
      (train_model oracleOne 5000 ⟨⟨none, none⟩, ⟨Blob.absent, Blob.absent⟩⟩, true) :=
  (load_model_contract oracleOne ⟨⟨none, none⟩, ⟨Blob.absent, Blob.absent⟩⟩).2.1 rfl

/-- C5 (code bug): `load_model` assigns `self.model` from the model blob
before touching the scaler blob, so when the scaler blob is corrupt the
call returns false with the in-memory model already replaced by the
freshly loaded one while the in-memory standardizer is the old one — the
in-memory pair no longer comes from one training run, contradicting the
required fail-closed atomicity. -/
theorem load_model_partial_load_bug :
    (load_model oracleOne wMixedDisk).2 = false ∧
    (load_model oracleOne wMixedDisk).1.state.model = some modelTwo ∧
    (load_model oracleOne wMixedDisk).1.state.scaler = some idScaler ∧
    wMixedDisk.state.model = some modelOne ∧
    modelTwo.predictFn fvZero ≠ modelOne.predictFn fvZero := by
  refine ⟨rfl, rfl, rfl, rfl, ?_⟩
  norm_num [modelOne, modelTwo]

/-- C3 (amended): a `predict_power_output` call made while the standardizer
is unfitted re-attempts load/train; when the persisted model artifact is
absent this implicitly trains (with the default sample count) and the call
returns a prediction with output `≥ 0` and confidence in `[0,1]`.  (When
the re-attempted load fails on a corrupt artifact the call still raises a
fitted-state error — see the counterexample.) -/
theorem predict_self_healing_absent (tr : TrainOracle) (w : World)
    (latitude longitude surface_area tilt_angle azimuth_angle panel_efficiency : ℚ)
    (weather_data : WeatherDict)
    (hs : w.state.scaler = none) (habs : w.disk.model_file = Blob.absent) :
    predict_power_output tr w latitude longitude surface_area tilt_angle
        azimuth_angle panel_efficiency weather_data =
      (train_model tr 5000 w, Except.ok
        (max 0 ((tr 5000).1.predictFn ((tr 5000).2.transform
            (inputVec latitude longitude surface_area tilt_angle azimuth_angle
              panel_efficiency weather_data))),
         clamp01 (rawConfidence (tr 5000).1 ((tr 5000).2.transform
            (inputVec latitude longitude surface_area tilt_angle azimuth_angle
              panel_efficiency weather_data))))) ∧
    0 ≤ max 0 ((tr 5000).1.predictFn ((tr 5000).2.transform
        (inputVec latitude longitude surface_area tilt_angle azimuth_angle
          panel_efficiency weather_data))) ∧
    0 ≤ clamp01 (rawConfidence (tr 5000).1 ((tr 5000).2.transform
        (inputVec latitude longitude surface_area tilt_angle azimuth_angle
          panel_efficiency weather_data))) ∧
    clamp01 (rawConfidence (tr 5000).1 ((tr 5000).2.transform
        (inputVec latitude longitude surface_area tilt_angle azimuth_angle
          panel_efficiency weather_data))) ≤ 1 := by
  refine ⟨?_, le_max_left _ _, clamp01_nonneg _, clamp01_le_one _⟩
  have hload : (load_model tr w).1 = train_model tr 5000 w := by
    simp [load_model, habs]
  simp [predict_power_output, hs, hload, train_model]

/-- Counterexample to C3 as stated: with the standardizer unfitted and a
corrupt persisted model blob, the re-attempted load fails and the call
raises a generic fitted-state error after all. -/
theorem predict_unfitted_corrupt_raises :
    (predict_power_output oracleOne wFreshCorrupt 1 2 3 4 5 6 []).2 =
      Except.error PredErr.notFitted := rfl

/-- Witness for the amended C3: a fresh process (nothing fitted, no
persisted artifacts) succeeds by implicit training. -/
theorem predict_self_healing_absent_witness :
    predict_power_output oracleOne ⟨⟨none, none⟩, ⟨Blob.absent, Blob.absent⟩⟩
        1 2 3 4 5 6 [] =
      (train_model oracleOne 5000 ⟨⟨none, none⟩, ⟨Blob.absent, Blob.absent⟩⟩,
        Except.ok
          (max 0 ((oracleOne 5000).1.predictFn ((oracleOne 5000).2.transform
              (inputVec 1 2 3 4 5 6 []))),
           clamp01 (rawConfidence (oracleOne 5000).1 ((oracleOne 5000).2.transform
              (inputVec 1 2 3 4 5 6 []))))) ∧
    0 ≤ clamp01 (rawConfidence (oracleOne 5000).1 ((oracleOne 5000).2.transform
        (inputVec 1 2 3 4 5 6 []))) := by
  have h := predict_self_healing_absent oracleOne
    ⟨⟨none, none⟩, ⟨Blob.absent, Blob.absent⟩⟩ 1 2 3 4 5 6 [] rfl rfl
  exact ⟨h.1, h.2.2.1⟩

/-! ## The synthetic data generator (claims C7, C8) -/

theorem genExample_spec (g : NumpyRNG) (s : g.State) :
    (-60 ≤ (genExample g s).1.latitude ∧ (genExample g s).1.latitude ≤ 60) ∧
    (-180 ≤ (genExample g s).1.longitude ∧ (genExample g s).1.longitude ≤ 180) ∧
    (10 ≤ (genExample g s).1.surface_area ∧ (genExample g s).1.surface_area ≤ 100) ∧
    (0 ≤ (genExample g s).1.tilt_angle ∧ (genExample g s).1.tilt_angle ≤ 60) ∧
    (0 ≤ (genExample g s).1.azimuth_angle ∧ (genExample g s).1.azimuth_angle ≤ 360) ∧
    (15/100 ≤ (genExample g s).1.panel_efficiency ∧
      (genExample g s).1.panel_efficiency ≤ 25/100) ∧
    (2 ≤ (genExample g s).1.solar_irradiance ∧ (genExample g s).1.solar_irradiance ≤ 8) ∧
    (-10 ≤ (genExample g s).1.temperature ∧ (genExample g s).1.temperature ≤ 45) ∧
    (20 ≤ (genExample g s).1.humidity ∧ (genExample g s).1.humidity ≤ 90) ∧
    (0 ≤ (genExample g s).1.wind_speed ∧ (genExample g s).1.wind_speed ≤ 20) ∧
    (0 ≤ (genExample g s).1.cloud_cover ∧ (genExample g s).1.cloud_cover ≤ 100) ∧
    0 ≤ (genExample g s).1.power_output ∧
    (∃ noise : ℝ, (genExample g s).1.power_output =
      max 0 (basePower (genExample g s).1 + noise)) := by
  refine ⟨?_, ?_, ?_, ?_, ?_, ?_, ?_, ?_, ?_, ?_, ?_, le_max_left _ _, ⟨_, rfl⟩⟩ <;>
    exact ⟨(g.uniform_mem _ _ _ (by norm_num)).1,
      le_of_lt (g.uniform_mem _ _ _ (by norm_num)).2⟩

theorem mem_genList {g : NumpyRNG} :
    ∀ {n : ℕ} {s : g.State} {e : Example}, e ∈ genList g s n →
      ∃ s' : g.State, e = (genExample g s').1 := by
  intro n
  induction n with
  | zero => intro s e he; cases he
  | succ k ih =>
    intro s e he
    rcases List.mem_cons.1 he with h1 | h1
    · exact ⟨s, h1⟩
    · exact ih h1

/-- C7: every example produced by `generate_synthetic_data` has each of its
eleven input fields inside its documented uniform range, and its label is
the empirical base-power formula plus a noise term, clamped at zero — so
`power_output ≥ 0` holds even when the noise drives the sum negative. -/
theorem synthetic_data_ranges (g : NumpyRNG) (s : g.State) (n_samples : ℕ)
    (e : Example) (he : e ∈ generate_synthetic_data g s n_samples) :
    (-60 ≤ e.latitude ∧ e.latitude ≤ 60) ∧
    (-180 ≤ e.longitude ∧ e.longitude ≤ 180) ∧
    (10 ≤ e.surface_area ∧ e.surface_area ≤ 100) ∧
    (0 ≤ e.tilt_angle ∧ e.tilt_angle ≤ 60) ∧
    (0 ≤ e.azimuth_angle ∧ e.azimuth_angle ≤ 360) ∧
    (15/100 ≤ e.panel_efficiency ∧ e.panel_efficiency ≤ 25/100) ∧
    (2 ≤ e.solar_irradiance ∧ e.solar_irradiance ≤ 8) ∧
    (-10 ≤ e.temperature ∧ e.temperature ≤ 45) ∧
    (20 ≤ e.humidity ∧ e.humidity ≤ 90) ∧
    (0 ≤ e.wind_speed ∧ e.wind_speed ≤ 20) ∧
    (0 ≤ e.cloud_cover ∧ e.cloud_cover ≤ 100) ∧
    0 ≤ e.power_output ∧
    (∃ noise : ℝ, e.power_output = max 0 (basePower e + noise)) := by
  obtain ⟨s', rfl⟩ := mem_genList he
  exact genExample_spec g s'

/-- Witness for C7 on the degenerate RNG with one sample: the ranges and
the non-negative clamped label are obtained from the theorem. -/
theorem synthetic_data_ranges_witness :
    0 ≤ ((genExample constRNG ()).1).power_output ∧
    -60 ≤ ((genExample constRNG ()).1).latitude ∧
    ((genExample constRNG ()).1).latitude ≤ 60 ∧
    2 ≤ ((genExample constRNG ()).1).solar_irradiance := by
  have hmem : (genExample constRNG ()).1 ∈ generate_synthetic_data constRNG () 1 :=
    List.mem_singleton_self _
  have h := synthetic_data_ranges constRNG () 1 (genExample constRNG ()).1 hmem
  exact ⟨h.2.2.2.2.2.2.2.2.2.2.2.1, h.1.1, h.1.2, h.2.2.2.2.2.2.1.1⟩

/-! ## The grid-search optimizer (claim C1) -/

theorem opt_noupdate (f : ℕ × ℕ → ℚ) :
    ∀ (l : List (ℕ × ℕ)) (b : ℕ × ℕ × ℚ), (∀ p ∈ l, f p ≤ b.2.2) →
      l.foldl (optStep f) b = b := by
  intro l
  induction l with
  | nil => intro b _; rfl
  | cons p t ih =>
    intro b hle
    have hstep : optStep f b p = b := by
      simp only [optStep, if_neg (not_lt.2 (hle p (List.mem_cons_self p t)))]
    rw [List.foldl_cons, hstep]
    exact ih b (fun q hq => hle q (List.mem_cons_of_mem p hq))

theorem opt_update_head (f : ℕ × ℕ → ℚ) (p : ℕ × ℕ) (l : List (ℕ × ℕ))
    (b : ℕ × ℕ × ℚ) (h1 : b.2.2 < f p) (h2 : ∀ q ∈ l, f q ≤ f p) :
    (p :: l).foldl (optStep f) b = (p.1, p.2, f p) := by
  have hstep : optStep f b p = (p.1, p.2, f p) := by
    simp only [optStep, if_pos h1]
  rw [List.foldl_cons, hstep]
  exact opt_noupdate f l (p.1, p.2, f p) h2

theorem opt_first (f : ℕ × ℕ → ℚ) :
    ∀ (l : List (ℕ × ℕ)) (b : ℕ × ℕ × ℚ),
      (l.foldl (optStep f) b = b ∧ ∀ p ∈ l, f p ≤ b.2.2) ∨
      (∃ i, ∃ h : i < l.length,
        l.foldl (optStep f) b =
          ((l.get ⟨i, h⟩).1, (l.get ⟨i, h⟩).2, f (l.get ⟨i, h⟩)) ∧
        b.2.2 < f (l.get ⟨i, h⟩) ∧
        (∀ q ∈ l.take i, f q < f (l.get ⟨i, h⟩)) ∧
        (∀ q ∈ l, f q ≤ f (l.get ⟨i, h⟩))) := by
  intro l
  induction l with
  | nil => intro b; exact Or.inl ⟨rfl, by simp⟩
  | cons p t ih =>
    intro b
    by_cases hgt : f p > b.2.2
    · have hstep : optStep f b p = (p.1, p.2, f p) := by
        simp only [optStep, if_pos hgt]
      rcases ih (p.1, p.2, f p) with ⟨heq, hle⟩ | ⟨i, hi, heq, hlt, hpre, hall⟩
      · refine Or.inr ⟨0, by simp, ?_, ?_, ?_, ?_⟩
        · rw [List.foldl_cons, hstep, heq]
          rfl
        · exact hgt
        · simp
        · intro q hq
          rcases List.mem_cons.1 hq with h | h
          · subst h; exact le_refl _
          · exact hle q h
      · refine Or.inr ⟨i + 1, Nat.succ_lt_succ hi, ?_, ?_, ?_, ?_⟩
        · rw [List.foldl_cons, hstep]
          exact heq
        · exact lt_trans hgt hlt
        · intro q hq
          rw [List.take_succ_cons] at hq
          rcases List.mem_cons.1 hq with h | h
          · subst h; exact hlt
          · exact hpre q h
        · intro q hq
          rcases List.mem_cons.1 hq with h | h
          · subst h; exact le_of_lt hlt
          · exact hall q h
    · have hle0 : f p ≤ b.2.2 := not_lt.1 hgt
      have hstep : optStep f b p = b := by
        simp only [optStep, if_neg hgt]
      rcases ih b with ⟨heq, hle⟩ | ⟨i, hi, heq, hlt, hpre, hall⟩
      · refine Or.inl ⟨?_, ?_⟩
        · rw [List.foldl_cons, hstep, heq]
        · intro q hq
          rcases List.mem_cons.1 hq with h | h
          · subst h; exact hle0
          · exact hle q h
      · refine Or.inr ⟨i + 1, Nat.succ_lt_succ hi, ?_, ?_, ?_, ?_⟩
        · rw [List.foldl_cons, hstep]
          exact heq
        · exact hlt
        · intro q hq
          rw [List.take_succ_cons] at hq
          rcases List.mem_cons.1 hq with h | h
          · subst h; exact lt_of_le_of_lt hle0 hlt
          · exact hpre q h
        · intro q hq
          rcases List.mem_cons.1 hq with h | h
          · subst h; exact le_of_lt (lt_of_le_of_lt hle0 hlt)
          · exact hall q h

set_option maxRecDepth 2000 in
theorem optGrid_length_eq : optGrid.length = 325 := by decide

theorem optGrid_mem_iff (p : ℕ × ℕ) :
    p ∈ optGrid ↔ p.1 % 5 = 0 ∧ p.1 ≤ 60 ∧ p.2 % 15 = 0 ∧ p.2 ≤ 360 := by
  constructor
  · intro hp
    simp only [optGrid, tilt_range, azimuth_range, List.mem_flatMap,
      List.mem_map, List.mem_range'] at hp
    obtain ⟨t, ⟨i, hi, rfl⟩, a, ⟨j, hj, rfl⟩, rfl⟩ := hp
    refine ⟨?_, ?_, ?_, ?_⟩ <;> simp <;> omega
  · rintro ⟨h1, h2, h3, h4⟩
    simp only [optGrid, tilt_range, azimuth_range, List.mem_flatMap,
      List.mem_map, List.mem_range']
    exact ⟨p.1, ⟨p.1 / 5, by omega, by omega⟩, p.2, ⟨p.2 / 15, by omega, by omega⟩,
      rfl⟩

set_option maxRecDepth 10000 in
theorem optGrid_getD (i : ℕ) (hi : i < 325) :
    optGrid.getD i (0, 0) = (5 * (i / 25), 15 * (i % 25)) := by
  revert i
  decide

theorem foldl_flatMap_eq {α β γ : Type} (f : β → α → β) (g : γ → List α) :
    ∀ (l : List γ) (b : β),
      (l.flatMap g).foldl f b = l.foldl (fun acc c => (g c).foldl f acc) b := by
  intro l
  induction l with
  | nil => intro b; rfl
  | cons c t ih =>
    intro b
    rw [List.flatMap_cons, List.foldl_append, List.foldl_cons]
    exact ih _

theorem optCell_fitted (tr : TrainOracle) (w : World)
    (latitude longitude surface_area panel_efficiency : ℚ)
    (weather_data : WeatherDict) (m : FittedModel) (sc : FittedScaler)
    (hm : w.state.model = some m) (hs : w.state.scaler = some sc)
    (acc : ℕ × ℕ × ℚ) (p : ℕ × ℕ) :
    optCell tr latitude longitude surface_area panel_efficiency weather_data
        (w, Except.ok acc) p =
      (w, Except.ok (optStep
        (predOutput m sc latitude longitude surface_area panel_efficiency
          weather_data) acc p)) := by
  rw [optCell, predict_power_output_fitted tr w latitude longitude surface_area
    (p.1 : ℚ) (p.2 : ℚ) panel_efficiency weather_data m sc hm hs]
  rfl

theorem foldl_optCell_fitted (tr : TrainOracle) (w : World)
    (latitude longitude surface_area panel_efficiency : ℚ)
    (weather_data : WeatherDict) (m : FittedModel) (sc : FittedScaler)
    (hm : w.state.model = some m) (hs : w.state.scaler = some sc) :
    ∀ (l : List (ℕ × ℕ)) (acc : ℕ × ℕ × ℚ),
      l.foldl (optCell tr latitude longitude surface_area panel_efficiency
          weather_data) (w, Except.ok acc) =
        (w, Except.ok (l.foldl (optStep
          (predOutput m sc latitude longitude surface_area panel_efficiency
            weather_data)) acc)) := by
  intro l
  induction l with
  | nil => intro acc; rfl
  | cons p t ih =>
    intro acc
    rw [List.foldl_cons, List.foldl_cons,
      optCell_fitted tr w latitude longitude surface_area panel_efficiency
        weather_data m sc hm hs acc p]
    exact ih _

theorem find_optimal_eq_fold (tr : TrainOracle) (w : World)
    (latitude longitude surface_area panel_efficiency : ℚ)
    (weather_data : WeatherDict) (m : FittedModel) (sc : FittedScaler)
    (hm : w.state.model = some m) (hs : w.state.scaler = some sc) :
    find_optimal_configuration tr w latitude longitude surface_area
        panel_efficiency weather_data =
      (w, Except.ok (optGrid.foldl (optStep
        (predOutput m sc latitude longitude surface_area panel_efficiency
          weather_data)) (0, 0, 0))) := by
  have hflat : optGrid.foldl (optCell tr latitude longitude surface_area
      panel_efficiency weather_data) (w, Except.ok (0, 0, 0)) =
      find_optimal_configuration tr w latitude longitude surface_area
        panel_efficiency weather_data := by
    rw [optGrid, foldl_flatMap_eq, find_optimal_configuration]
    apply List.foldl_ext
    intro acc t _
    rw [List.foldl_map]
  rw [← hflat]
  exact foldl_optCell_fitted tr w latitude longitude surface_area
    panel_efficiency weather_data m sc hm hs optGrid (0, 0, 0)

/-- C1: on a fitted state, `find_optimal_configuration` evaluates the
Predictor over exactly the 325-point grid (tilt `{0,5,...,60}` by azimuth
`{0,15,...,360}`, tilt-major ascending iteration order), the returned
triple is the pure strictly-greater fold from the initial `(0,0,0)`, its
output bounds every grid output, the returned pair is the first grid point
attaining it (all earlier points are strictly smaller), and a constant
Predictor output `c` over the grid — in particular the all-zero case —
returns `(0, 0, c)`, the unchanged initial pair. -/
theorem optimizer_grid_search_spec (tr : TrainOracle) (w : World)
    (latitude longitude surface_area panel_efficiency : ℚ)
    (weather_data : WeatherDict) (m : FittedModel) (sc : FittedScaler)
    (hm : w.state.model = some m) (hs : w.state.scaler = some sc) :
    optGrid.length = 325 ∧
    (∀ p : ℕ × ℕ, p ∈ optGrid ↔
      p.1 % 5 = 0 ∧ p.1 ≤ 60 ∧ p.2 % 15 = 0 ∧ p.2 ≤ 360) ∧
    (∀ i, i < 325 → optGrid.getD i (0, 0) = (5 * (i / 25), 15 * (i % 25))) ∧
    find_optimal_configuration tr w latitude longitude surface_area
        panel_efficiency weather_data =
      (w, Except.ok (optGrid.foldl (optStep
        (predOutput m sc latitude longitude surface_area panel_efficiency
          weather_data)) (0, 0, 0))) ∧
    (∀ p ∈ optGrid,
      predOutput m sc latitude longitude surface_area panel_efficiency
          weather_data p ≤
        (optGrid.foldl (optStep (predOutput m sc latitude longitude surface_area
          panel_efficiency weather_data)) (0, 0, 0)).2.2) ∧
    (∃ i, ∃ h : i < optGrid.length,
      optGrid.foldl (optStep (predOutput m sc latitude longitude surface_area
          panel_efficiency weather_data)) (0, 0, 0) =
        ((optGrid.get ⟨i, h⟩).1, (optGrid.get ⟨i, h⟩).2,
          predOutput m sc latitude longitude surface_area panel_efficiency
            weather_data (optGrid.get ⟨i, h⟩)) ∧
      (∀ q ∈ optGrid.take i,
        predOutput m sc latitude longitude surface_area panel_efficiency
            weather_data q <
          predOutput m sc latitude longitude surface_area panel_efficiency
            weather_data (optGrid.get ⟨i, h⟩))) ∧
    (∀ c : ℚ, (∀ p ∈ optGrid,
        predOutput m sc latitude longitude surface_area panel_efficiency
          weather_data p = c) →
      optGrid.foldl (optStep (predOutput m sc latitude longitude surface_area
        panel_efficiency weather_data)) (0, 0, 0) = (0, 0, c)) := by
  refine ⟨optGrid_length_eq, optGrid_mem_iff, optGrid_getD,
    find_optimal_eq_fold tr w latitude longitude surface_area panel_efficiency
      weather_data m sc hm hs, ?_, ?_, ?_⟩
  · rcases opt_first (predOutput m sc latitude longitude surface_area
        panel_efficiency weather_data) optGrid (0, 0, 0) with
      ⟨heq, hle⟩ | ⟨i, hi, heq, _, _, hall⟩
    · rw [heq]; exact hle
    · rw [heq]; exact hall
  · rcases opt_first (predOutput m sc latitude longitude surface_area
        panel_efficiency weather_data) optGrid (0, 0, 0) with
      ⟨heq, hle⟩ | ⟨i, hi, heq, _, hpre, _⟩
    · have hlen : 0 < optGrid.length := by rw [optGrid_length_eq]; norm_num
      have hg0 : optGrid.get ⟨0, hlen⟩ = (0, 0) := rfl
      have h0mem : (0, 0) ∈ optGrid :=
        (optGrid_mem_iff (0, 0)).2 (by norm_num)
      refine ⟨0, hlen, ?_, ?_⟩
      · have hf0 : predOutput m sc latitude longitude surface_area
            panel_efficiency weather_data (0, 0) = 0 :=
          le_antisymm (hle _ h0mem) (le_max_left _ _)
        rw [heq, hg0, hf0]
      · intro q hq
        simp at hq
    · exact ⟨i, hi, heq, hpre⟩
  · intro c hc
    have h0mem : (0, 0) ∈ optGrid :=
      (optGrid_mem_iff (0, 0)).2 (by norm_num)
    have hc0 : predOutput m sc latitude longitude surface_area panel_efficiency
        weather_data (0, 0) = c := hc _ h0mem
    have hcge : 0 ≤ c := hc0 ▸ le_max_left _ _
    rcases eq_or_lt_of_le hcge with hceq | hcpos
    · rw [opt_noupdate _ optGrid (0, 0, 0)
        (fun p hp => by rw [hc p hp, ← hceq]), ← hceq]
    · have hcons : optGrid = (0, 0) :: optGrid.tail := rfl
      rw [hcons, opt_update_head _ (0, 0) optGrid.tail (0, 0, 0)
        (by rw [hc0]; exact hcpos)
        (fun q hq => by
          rw [hc0, hc q (hcons ▸ List.mem_cons_of_mem (0, 0) hq)]),
        hc0]

/-- Witness for C1: with a Predictor stubbed to the constant output 5 for
all angle pairs, `find_optimal_configuration` returns the first grid point
`(0, 0)` with that constant. -/
theorem optimizer_grid_search_spec_witness :
    find_optimal_configuration oracleOne wFitFive 1 2 3 6 [] =
      (wFitFive, Except.ok (0, 0, 5)) := by
  have h := optimizer_grid_search_spec oracleOne wFitFive 1 2 3 6 []
    modelFive idScaler rfl rfl
  have hconst : ∀ p ∈ optGrid, predOutput modelFive idScaler 1 2 3 6 [] p = 5 := by
    intro p _
    norm_num [predOutput, modelFive]
  rw [h.2.2.2.1, h.2.2.2.2.2.2 5 hconst]
